import Mathlib

/-!
Shallow embedding of `code.py` from `pico_synth_sandbox-player`.

The program is a single-file CircuitPython song player.  The parts embedded
here are the ones the verified properties speak about:

* the MIDI dispatch loop inside `SongPlayer.update` (lines 229-246),
* the `SongPlayer` state machine: `play` / `stop` / `is_playing` / `update`
  (lines 170-252), together with the collaborator state it mutates
  (the audio driver, the MIDI output log, the open file handle), and
* the UI-level song selection functions `increment_song`, `decrement_song`,
  `toggle_song` (lines 268-288).

Modelling conventions:

* Python integers are `Int` / `Nat` (CPython integers are unbounded, so no
  wrap-around is modelled).  `time.monotonic_ns() // 1000` values are `Int`.
* `await asyncio.sleep(delay / 1000000)` is modelled with an idealized clock:
  the suspension advances the clock by exactly `delay` microseconds.
* The program is single logical thread, cooperative.  The only point where
  control can leave the dispatch loop is the `await`; a concurrent `stop()`
  (from an encoder callback) is modelled by an oracle `stopAt : Nat -> Bool`
  telling whether `stop()` runs during the n-th suspension of the loop.
  The in-loop flag check `if not self.midi_playing: break` runs every
  iteration, but between two points with no suspension the flag cannot
  change, so only the post-suspension checks can observe a cleared flag.
* Exceptions are modelled with `Except Unit`: a raising call returns
  `.error ()` together with the state at the raise point (Python objects are
  mutated in place, so mutations before the raise persist).
* Side effects on collaborators (audio driver calls, file open/close) are
  recorded both in the resulting state and as an explicit effect trace, so
  that ordering properties ("released before opened") can be stated.
* The display is pure output and none of the properties mention it, so
  `update_display` is not modelled.
-/

namespace Player

/-- Metadata of a decoded WAV file (`audiocore.WaveFile`). -/
structure WavFile where
  sample_rate : Nat
  channel_count : Nat
  bits_per_sample : Nat
deriving Repr, DecidableEq

/-- The status (kind) of a parsed MIDI event, with its payload fields, as
exposed by `umidiparser` and consumed by the dispatch chain of
`SongPlayer.update`.  `other` stands for any status the loop does not
recognize (the final `# Ignore unrecognized events` case). -/
inductive MidiStatus where
  | noteOn (note velocity channel : Nat)
  | noteOff (note channel : Nat)
  | controlChange (control value channel : Nat)
  | programChange (program channel : Nat)
  | other (raw : Nat)
deriving Repr, DecidableEq

/-- One event pulled from the MIDI event cursor: a delta-time in
microseconds since the previous event (`event.delta_us`) plus its status. -/
structure MidiEvent where
  delta_us : Nat
  status : MidiStatus
deriving Repr, DecidableEq

/-- Observable actions of the MIDI dispatch loop: a suspension of a given
number of microseconds, or one of the four MIDI output calls. -/
inductive MidiAction where
  | sleep (us : Nat)
  | noteOn (note velocity channel : Nat)
  | noteOff (note channel : Nat)
  | controlChange (control value channel : Nat)
  | programChange (program channel : Nat)
deriving Repr, DecidableEq

/-- The dispatch performed for one event by the `if/elif` chain of
`SongPlayer.update` (lines 238-246): one MIDI output call for the four
recognized statuses, nothing for an unrecognized status. -/
def dispatchOf (e : MidiEvent) : List MidiAction :=
  match e.status with
  | .noteOn note velocity channel => [.noteOn note velocity channel]
  | .noteOff note channel => [.noteOff note channel]
  | .controlChange control value channel => [.controlChange control value channel]
  | .programChange program channel => [.programChange program channel]
  | .other _ => []

/-- Whether an action is a suspension. -/
def MidiAction.isSleep : MidiAction → Bool
  | .sleep _ => true
  | _ => false

/-- The MIDI-output calls of a trace, suspensions removed. -/
def sends (t : List MidiAction) : List MidiAction :=
  t.filter (fun a => !a.isSleep)

/-- The MIDI dispatch loop of `SongPlayer.update` (lines 229-246):

```
midi_time = 0
for event in self.midi_track:
    midi_time += event.delta_us
    current_time = time.monotonic_ns() // 1000 - self.start_time
    delay = midi_time - current_time
    if delay > 0:
        await asyncio.sleep(delay / 1000000)
    if not self.midi_playing:
        break
    <dispatch by event.status>
```

Arguments: `stopAt` is the concurrency oracle (whether `stop()` runs during
the n-th suspension), then the remaining events of the cursor, the running
`midi_time` accumulator, the current clock value `now`, `self.start_time`,
and the number of suspensions performed so far.  Returns the action trace,
whether the loop was broken by a concurrent `stop()`, and the final clock
value.  When no suspension happens, `self.midi_playing` cannot have changed
(single-threaded, it was set to `True` right before the loop), so the break
check is modelled only after a suspension. -/
def dispatchLoop (stopAt : Nat → Bool) :
    List MidiEvent → Nat → Int → Int → Nat → List MidiAction × Bool × Int
  | [], _, now, _, _ => ([], false, now)
  | e :: rest, midi_time, now, start_time, s =>
    let midi_time' := midi_time + e.delta_us
    let current_time := now - start_time
    let delay : Int := (midi_time' : Int) - current_time
    if 0 < delay then
      let now' := now + delay
      if stopAt s then
        ([.sleep delay.toNat], true, now')
      else
        let r := dispatchLoop stopAt rest midi_time' now' start_time (s + 1)
        (.sleep delay.toNat :: (dispatchOf e ++ r.1), r.2.1, r.2.2)
    else
      let r := dispatchLoop stopAt rest midi_time' now start_time s
      (dispatchOf e ++ r.1, r.2.1, r.2.2)

/-- The oracle of a run during which no concurrent `stop()` ever happens. -/
def noStop : Nat → Bool := fun _ => false

/-- The part of an action trace strictly after its n-th suspension
(1-indexed); the whole trace for `n = 0`, and `[]` when the trace holds
fewer than `n` suspensions. -/
def afterNSleeps : Nat → List MidiAction → List MidiAction
  | 0, t => t
  | _ + 1, [] => []
  | n + 1, .sleep _ :: t => afterNSleeps n t
  | n + 1, _ :: t => afterNSleeps (n + 1) t

/-- A song of the catalog (`class Song`, lines 112-141).  Fields as set by
`Song.__init__` after validation: optional fields are `None` or a value. -/
structure Song where
  keynum : Int
  midi_note : Option Int
  audio_file : Option String
  midi_file : Option String
  title : String
deriving Repr, DecidableEq

/-- `Song.has_audio` (line 138). -/
def Song.has_audio (s : Song) : Bool := s.audio_file.isSome

/-- `Song.has_midi` (line 140). -/
def Song.has_midi (s : Song) : Bool := s.midi_file.isSome

/-- The mutable fields of the `SongPlayer` instance (lines 170-181).
`audio_file` holds the handle returned by `open(...)`, modelled as a
numeric handle id; `midi_track` holds the parsed event cursor; the other
fields are as in `__init__`. -/
structure SongPlayer where
  song : Option Song
  audio_file : Option Nat
  audio_wav : Option WavFile
  audio_playing : Bool
  midi_track : Option (List MidiEvent)
  midi_playing : Bool
  start_time : Int
deriving Repr, DecidableEq

/-- The state of the shared audio driver collaborator (`audio`):
whether it is streaming, its gain level, and its configured format. -/
structure AudioDriver where
  playing : Bool
  level : Rat
  sample_rate : Option Nat
  channel_count : Option Nat
  bits_per_sample : Option Nat
  current : Option WavFile
deriving Repr, DecidableEq

/-- The state the player code touches: the `SongPlayer` instance, the audio
driver, the log of MIDI output calls, the global gain `level`, and a
fresh-handle counter for `open(...)`. -/
structure World where
  player : SongPlayer
  audio : AudioDriver
  midiLog : List MidiAction
  level : Rat
  nextHandle : Nat
deriving Repr, DecidableEq

/-- Collaborator side effects of `play` / `stop`, recorded in order, so that
resource-release ordering can be stated. -/
inductive Effect where
  | audioStop
  | closeFile (h : Nat)
  | openMidi (path : String)
  | openAudio (path : String)
  | audioConfigure (sample_rate channel_count bits_per_sample : Nat)
  | setLevel (l : Rat)
  | audioPlay (w : WavFile)
deriving Repr, DecidableEq

/-- Whether an effect tears a resource down (halts the audio stream or
closes a file handle). -/
def Effect.isTeardown : Effect → Bool
  | .audioStop => true
  | .closeFile _ => true
  | _ => false

/-- `SongPlayer.stop` (lines 208-215):

```
self.audio.stop()
if not self.audio_file is None:
    self.audio_file.close()
    self.audio_file = None
self.midi_playing = False
if not self.song is None:
    self.song = None
```

Note what it does NOT touch: `audio_wav`, `audio_playing`, `midi_track`
and `start_time` keep their values. -/
def stopWorld (w : World) : World × List Effect :=
  let effs := Effect.audioStop ::
    (match w.player.audio_file with
     | some h => [Effect.closeFile h]
     | none => [])
  ({ w with
      audio := { w.audio with playing := false }
      player := { w.player with
        audio_file := none
        midi_playing := false
        song := none } },
   effs)

/-- The argument of `play`: either an actual `Song` or any other Python
object (which fails the `isinstance(song, Song)` check). -/
inductive PlayArg where
  | song (s : Song)
  | notASong
deriving Repr, DecidableEq

/-- The environment a `play` call runs in: the results of the fallible
collaborator calls and the clock value read into `start_time`.
`midiParse` is `umidiparser.MidiFile(path).play(sleep=False)`,
`audioOpen` is `open(path, "rb")` (success yields a fresh handle),
`wavDecode` is `audiocore.WaveFile(file)`.  `.error ()` means the call
raises. -/
structure PlayEnv where
  midiParse : Except Unit (List MidiEvent)
  audioOpen : Except Unit Unit
  wavDecode : Except Unit WavFile
  now : Int
deriving Repr

/-- `SongPlayer.play` (lines 182-207), faithful to statement order:

```
self.stop()
if not isinstance(song, Song):
    return False
self.song = song
if self.song.has_midi():
    self.midi_track = umidiparser.MidiFile(self.song.midi_file).play(sleep=False)
if self.song.has_audio():
    self.audio_file = open(self.song.audio_file, "rb")
    self.audio_wav = audiocore.WaveFile(self.audio_file)
    self.audio.configure(...)
    self.audio.set_level(level)
    self.audio.play(self.audio_wav)
    self.audio_playing = True
self.start_time = time.monotonic_ns() // 1000
return True
```

There is no `try/except` in `play`: a raising collaborator call propagates,
leaving all mutations made before the raise in place.  Returns the state
at exit, `.ok b` for a normal return of `b` or `.error ()` for a raise, and
the effect trace. -/
def playWorld (w : World) (arg : PlayArg) (env : PlayEnv) :
    World × Except Unit Bool × List Effect :=
  let r0 := stopWorld w
  let w1 := r0.1
  let effs0 := r0.2
  match arg with
  | .notASong => (w1, .ok false, effs0)
  | .song s =>
    let w2 := { w1 with player := { w1.player with song := some s } }
    -- if self.song.has_midi(): open the event cursor
    let midiStep : World × Except Unit Unit × List Effect :=
      match s.midi_file with
      | none => (w2, .ok (), effs0)
      | some path =>
        match env.midiParse with
        | .error () => (w2, .error (), effs0 ++ [.openMidi path])
        | .ok track =>
          ({ w2 with player := { w2.player with midi_track := some track } },
           .ok (), effs0 ++ [.openMidi path])
    match midiStep with
    | (w3, .error (), effs1) => (w3, .error (), effs1)
    | (w3, .ok (), effs1) =>
      -- if self.song.has_audio(): open, decode, configure, start
      let audioStep : World × Except Unit Unit × List Effect :=
        match s.audio_file with
        | none => (w3, .ok (), effs1)
        | some path =>
          match env.audioOpen with
          | .error () => (w3, .error (), effs1 ++ [.openAudio path])
          | .ok () =>
            let h := w3.nextHandle
            let w4 := { w3 with
              nextHandle := w3.nextHandle + 1
              player := { w3.player with audio_file := some h } }
            match env.wavDecode with
            | .error () => (w4, .error (), effs1 ++ [.openAudio path])
            | .ok wav =>
              let w5 := { w4 with
                player := { w4.player with audio_wav := some wav, audio_playing := true }
                audio := { w4.audio with
                  sample_rate := some wav.sample_rate
                  channel_count := some wav.channel_count
                  bits_per_sample := some wav.bits_per_sample
                  level := w4.level
                  playing := true
                  current := some wav } }
              (w5, .ok (),
               effs1 ++ [.openAudio path,
                 .audioConfigure wav.sample_rate wav.channel_count wav.bits_per_sample,
                 .setLevel w4.level, .audioPlay wav])
      match audioStep with
      | (w6, .error (), effs2) => (w6, .error (), effs2)
      | (w6, .ok (), effs2) =>
        ({ w6 with player := { w6.player with start_time := env.now } },
         .ok true, effs2)

/-- `SongPlayer.is_playing` (lines 217-220). -/
def is_playing (w : World) : Bool := w.player.song.isSome

/-- `SongPlayer.update` (lines 222-252) as one whole call:

```
if not self.is_playing(): return
if self.song.has_midi() and self.midi_track:
    self.midi_playing = True
    <dispatch loop>           -- dispatchLoop above
    self.midi_playing = False
if self.audio_playing and not self.audio.is_playing():
    self.audio_playing = False
if not self.midi_playing and not self.audio_playing:
    self.stop()
```

`stopAt` is the concurrency oracle for the dispatch loop; `now` is the
clock value when the call starts.  A concurrent `stop()` during a
suspension is applied as `stopWorld` at the break point (its effects touch
components disjoint from the MIDI log, so applying it after appending the
already-dispatched messages is equivalent).  The call is split into its
three source blocks: the MIDI block (lines 227-247), the audio poll
(lines 249-250) and the auto-stop (lines 251-252). -/
def updateMidiPhase (stopAt : Nat → Bool) (now : Int) (s : Song) (w : World) : World :=
  match (if s.has_midi then w.player.midi_track else none) with
  | none => w
  | some track =>
    let wA := { w with player := { w.player with midi_playing := true } }
    let r := dispatchLoop stopAt track 0 now wA.player.start_time 0
    let wB := { wA with midiLog := wA.midiLog ++ sends r.1 }
    let wC := if r.2.1 then (stopWorld wB).1 else wB
    { wC with player := { wC.player with midi_playing := false } }

/-- The audio poll of `update` (lines 249-250). -/
def updateAudioPoll (w : World) : World :=
  if w.player.audio_playing && !w.audio.playing then
    { w with player := { w.player with audio_playing := false } }
  else w

/-- The auto-stop of `update` (lines 251-252). -/
def updateAutoStop (w : World) : World :=
  if !w.player.midi_playing && !w.player.audio_playing then (stopWorld w).1 else w

/-- One whole `update` call: early return when idle, then the three blocks
in source order. -/
def updateWorld (stopAt : Nat → Bool) (now : Int) (w : World) : World :=
  match w.player.song with
  | none => w
  | some s => updateAutoStop (updateAudioPoll (updateMidiPhase stopAt now s w))

/-- The state of the UI layer: the song catalog (nonempty in a running
program), the selected index and the player world. -/
structure UiState where
  songs : List Song
  selected : Nat
  world : World
deriving Repr, DecidableEq

/-- `increment_song` (lines 268-272).  `update_display` only renders and is
not modelled. -/
def increment_song (st : UiState) : UiState :=
  if !is_playing st.world then
    { st with selected := (st.selected + 1) % st.songs.length }
  else st

/-- `decrement_song` (lines 274-278).  Python's `(selected - 1) % n` on a
nonnegative `selected` and positive `n` equals `(selected + n - 1) % n`. -/
def decrement_song (st : UiState) : UiState :=
  if !is_playing st.world then
    { st with selected := (st.selected + st.songs.length - 1) % st.songs.length }
  else st

/-- `toggle_song` (lines 280-288):

```
if not index is None:
    selected = index % len(songs)
if player.is_playing():
    player.stop()
else:
    player.play(songs[selected])
```

The index assignment happens BEFORE the `is_playing` check.  The catalog
lookup `songs[selected]` cannot fail in the running program (`selected` is
always reduced mod a nonempty catalog's length); the impossible case leaves
the world unchanged. -/
def toggle_song (index : Option Nat) (env : PlayEnv) (st : UiState) : UiState :=
  let st1 :=
    match index with
    | some i => { st with selected := i % st.songs.length }
    | none => st
  if is_playing st1.world then
    { st1 with world := (stopWorld st1.world).1 }
  else
    match st1.songs[st1.selected]? with
    | some s => { st1 with world := (playWorld st1.world (.song s) env).1 }
    | none => st1

/-! Concrete instances used to evaluate the definitions on closed inputs. -/

/-- An audio-only song (audio asset, no MIDI asset). -/
def songA : Song := ⟨1, none, some "/sd/a.wav", none, "a"⟩

/-- A MIDI-only song (MIDI asset, no audio asset). -/
def songM : Song := ⟨2, none, none, some "/sd/b.mid", "b"⟩

/-- A decoded WAV descriptor. -/
def wavA : WavFile := ⟨22050, 1, 16⟩

/-- The engine's state right after construction (`SongPlayer.__init__`),
with a stopped audio driver. -/
def freshWorld : World :=
  { player := ⟨none, none, none, false, none, false, 0⟩
    audio := ⟨false, 1, none, none, none, none⟩
    midiLog := []
    level := 1
    nextHandle := 0 }

/-- An environment in which every collaborator call succeeds. -/
def envOk : PlayEnv :=
  ⟨.ok [⟨0, .noteOn 60 100 0⟩], .ok (), .ok wavA, 100⟩

/-- An environment in which `open(self.song.audio_file, "rb")` raises. -/
def envOpenFail : PlayEnv :=
  ⟨.ok [⟨0, .noteOn 60 100 0⟩], .error (), .error (), 100⟩

/-- An environment in which the file opens but `audiocore.WaveFile` raises. -/
def envWavFail : PlayEnv :=
  ⟨.ok [⟨0, .noteOn 60 100 0⟩], .ok (), .error (), 100⟩

/-- The world while `songA` is playing: `play(songA)` succeeded from the
fresh state. -/
def playingWorld : World := (playWorld freshWorld (.song songA) envOk).1

/-- `playingWorld` after the audio driver has finished streaming the
waveform on its own (the collaborator's `is_playing()` turns false). -/
def audioDoneWorld : World :=
  { playingWorld with audio := { playingWorld.audio with playing := false } }

/-- The world after: `play(songA)`; a manual `stop()`; `play(songM)`.
The second session is MIDI-only. -/
def staleFlagWorld : World :=
  (playWorld (stopWorld playingWorld).1 (.song songM) envOk).1

/-- Four recognized events with cumulative delta-times
1000 / 2000 / 4000 / 10000 microseconds. -/
def catchUpEvents : List MidiEvent :=
  [⟨1000, .noteOn 60 100 0⟩, ⟨1000, .noteOn 62 100 0⟩,
   ⟨2000, .noteOn 64 100 0⟩, ⟨6000, .noteOn 65 100 0⟩]

/-- A UI state with a three-song catalog, index 0 selected, while the
player is mid-session. -/
def uiPlaying : UiState := ⟨[songA, songM, songM], 0, playingWorld⟩

/-! ## General lemmas about the dispatch loop -/

theorem sends_append (a b : List MidiAction) : sends (a ++ b) = sends a ++ sends b :=
  List.filter_append ..

theorem sends_dispatchOf (e : MidiEvent) : sends (dispatchOf e) = dispatchOf e := by
  cases e with
  | mk d st => cases st <;> simp [dispatchOf, sends, MidiAction.isSleep]

theorem sends_sleep_cons (d : Nat) (t : List MidiAction) :
    sends (.sleep d :: t) = sends t := by
  simp [sends, MidiAction.isSleep]

/-- With no concurrent `stop()`, the loop dispatches every recognized event
of the cursor, in file order. -/
theorem sends_dispatchLoop_noStop (evs : List MidiEvent) :
    ∀ midi_time (now start_time : Int) s,
      sends (dispatchLoop noStop evs midi_time now start_time s).1
        = evs.flatMap dispatchOf := by
  induction evs with
  | nil => intro mt now st s; simp [dispatchLoop, sends]
  | cons e rest ih =>
    intro mt now st s
    by_cases hd : (0 : Int) < ((mt + e.delta_us : Nat) : Int) - (now - st)
    · simp only [dispatchLoop, hd, if_pos, noStop, Bool.false_eq_true, if_false,
        List.flatMap_cons]
      rw [sends_sleep_cons, sends_append, sends_dispatchOf, ih]
    · simp only [dispatchLoop, hd, if_false, List.flatMap_cons]
      rw [sends_append, sends_dispatchOf, ih]

theorem afterNSleeps_nil (n : Nat) : afterNSleeps n [] = [] := by
  cases n <;> rfl

theorem afterNSleeps_append_sendsOnly (n : Nat) (l t : List MidiAction)
    (h : ∀ a ∈ l, a.isSleep = false) :
    afterNSleeps (n + 1) (l ++ t) = afterNSleeps (n + 1) t := by
  induction l with
  | nil => rfl
  | cons a l ih =>
    have ha := h a (by simp)
    cases a with
    | sleep d => simp [MidiAction.isSleep] at ha
    | noteOn x y z =>
      simpa [afterNSleeps] using ih (fun b hb => h b (by simp [hb]))
    | noteOff x y =>
      simpa [afterNSleeps] using ih (fun b hb => h b (by simp [hb]))
    | controlChange x y z =>
      simpa [afterNSleeps] using ih (fun b hb => h b (by simp [hb]))
    | programChange x y =>
      simpa [afterNSleeps] using ih (fun b hb => h b (by simp [hb]))

theorem dispatchOf_no_sleep (e : MidiEvent) : ∀ a ∈ dispatchOf e, a.isSleep = false := by
  cases e with
  | mk d st => cases st <;> simp [dispatchOf, MidiAction.isSleep]

theorem afterNSleeps_sleep_cons (n d : Nat) (t : List MidiAction) :
    afterNSleeps (n + 1) (.sleep d :: t) = afterNSleeps n t := rfl

/-- If `stop()` runs during the `(s + k)`-th suspension of the loop (indices
counted from the loop's `s`-th), then nothing at all — in particular no
dispatch — follows the `(k + 1)`-th suspension of the resulting trace. -/
theorem dispatchLoop_stopped (stopAt : Nat → Bool) (evs : List MidiEvent) :
    ∀ midi_time (now start_time : Int) s k, stopAt (s + k) = true →
      afterNSleeps (k + 1) (dispatchLoop stopAt evs midi_time now start_time s).1 = [] := by
  induction evs with
  | nil => intro mt now st s k _; simp [dispatchLoop, afterNSleeps_nil]
  | cons e rest ih =>
    intro mt now st s k hk
    simp only [dispatchLoop]
    split
    · split
      · simp [afterNSleeps, afterNSleeps_nil]
      · rename_i hst
        rw [Bool.not_eq_true] at hst
        cases k with
        | zero => rw [Nat.add_zero] at hk; rw [hk] at hst; cases hst
        | succ k =>
          rw [afterNSleeps_sleep_cons,
            afterNSleeps_append_sendsOnly _ _ _ (dispatchOf_no_sleep e)]
          exact ih _ _ _ (s + 1) k
            (by rw [show s + 1 + k = s + (k + 1) from by omega]; exact hk)
    · rw [afterNSleeps_append_sendsOnly _ _ _ (dispatchOf_no_sleep e)]
      exact ih _ _ _ s k hk

/-! ## Claims about the MIDI dispatch loop -/

/-- Claim C1: in the dispatch loop of `update()`, every pulled event gets
`wait = midi_time - (now() - start_time)` computed; if `wait > 0` the loop
suspends for `wait` microseconds before dispatching, and if `wait <= 0` it
dispatches immediately with no suspension; file order is preserved (with no
concurrent stop the dispatched commands are exactly the events' commands in
file order); and a session entering the loop 5000 microseconds late against
events with cumulative delta-times 1000/2000/4000 microseconds dispatches
those three immediately, in order, before sleeping for the fourth. -/
theorem c1_pacing_and_catchup :
    (∀ evs midi_time (now start_time : Int) s,
      sends (dispatchLoop noStop evs midi_time now start_time s).1
        = evs.flatMap dispatchOf)
    ∧ (∀ stopAt (e : MidiEvent) rest midi_time (now start_time : Int) s,
        (((midi_time + e.delta_us : Nat) : Int) - (now - start_time) ≤ 0 →
          (dispatchLoop stopAt (e :: rest) midi_time now start_time s).1
            = dispatchOf e
              ++ (dispatchLoop stopAt rest (midi_time + e.delta_us) now start_time s).1)
        ∧ (0 < ((midi_time + e.delta_us : Nat) : Int) - (now - start_time) →
            stopAt s = false →
            (dispatchLoop stopAt (e :: rest) midi_time now start_time s).1
              = .sleep (((midi_time + e.delta_us : Nat) : Int) - (now - start_time)).toNat
                :: (dispatchOf e
                  ++ (dispatchLoop stopAt rest (midi_time + e.delta_us)
                        (now + (((midi_time + e.delta_us : Nat) : Int) - (now - start_time)))
                        start_time (s + 1)).1)))
    ∧ dispatchLoop noStop catchUpEvents 0 5000 0 0
        = ([.noteOn 60 100 0, .noteOn 62 100 0, .noteOn 64 100 0,
            .sleep 5000, .noteOn 65 100 0], false, 10000) := by
  refine ⟨fun evs mt now st s => sends_dispatchLoop_noStop evs mt now st s, ?_, by decide⟩
  intro stopAt e rest mt now st s
  constructor
  · intro hle
    simp only [dispatchLoop]
    split
    · rename_i hgt; exact absurd hgt (not_lt.mpr hle)
    · rfl
  · intro hgt hst
    simp only [dispatchLoop]
    split
    · split
      · rename_i h'; rw [hst] at h'; cases h'
      · rfl
    · rename_i h'; exact absurd hgt h'

/-- Witness for C1: the two pacing hypotheses discharged on concrete
inputs — an already-due event (computed wait `-10`) is dispatched with no
suspension, and a future event (wait `5`) gets a 5-microsecond suspension
first. -/
theorem c1_pacing_and_catchup_witness :
    (((0 + (⟨0, .noteOn 1 1 0⟩ : MidiEvent).delta_us : Nat) : Int) - (10 - 0) ≤ 0
      ∧ (dispatchLoop noStop [⟨0, .noteOn 1 1 0⟩] 0 10 0 0).1
          = dispatchOf ⟨0, .noteOn 1 1 0⟩ ++ (dispatchLoop noStop [] 0 10 0 0).1)
    ∧ ((0 : Int) < ((0 + (⟨5, .noteOn 1 1 0⟩ : MidiEvent).delta_us : Nat) : Int) - (0 - 0)
      ∧ (dispatchLoop noStop [⟨5, .noteOn 1 1 0⟩] 0 0 0 0).1
          = .sleep (((0 + (⟨5, .noteOn 1 1 0⟩ : MidiEvent).delta_us : Nat) : Int) - (0 - 0)).toNat
            :: (dispatchOf ⟨5, .noteOn 1 1 0⟩
              ++ (dispatchLoop noStop [] (0 + (⟨5, .noteOn 1 1 0⟩ : MidiEvent).delta_us)
                    (0 + (((0 + (⟨5, .noteOn 1 1 0⟩ : MidiEvent).delta_us : Nat) : Int) - (0 - 0)))
                    0 (0 + 1)).1)) :=
  ⟨⟨by decide,
    (c1_pacing_and_catchup.2.1 noStop ⟨0, .noteOn 1 1 0⟩ [] 0 10 0 0).1 (by decide)⟩,
   ⟨by decide,
    (c1_pacing_and_catchup.2.1 noStop ⟨5, .noteOn 1 1 0⟩ [] 0 0 0 0).2 (by decide) (by decide)⟩⟩

/-- Claim C2: if `stop()` runs during the `k`-th suspension of the dispatch
loop (clearing `midi_playing`), the loop's post-suspension flag check
abandons the remainder of the cursor: the trace holds nothing — in
particular no MIDI output call — after that suspension. -/
theorem c2_stop_abandons_cursor (stopAt : Nat → Bool) (evs : List MidiEvent)
    (midi_time : Nat) (now start_time : Int) (k : Nat)
    (h : stopAt k = true) :
    afterNSleeps (k + 1) (dispatchLoop stopAt evs midi_time now start_time 0).1 = [] :=
  dispatchLoop_stopped stopAt evs midi_time now start_time 0 k (by simpa using h)

/-- Witness for C2: a `stop()` during the very first suspension of a
four-event cursor leaves nothing after that suspension. -/
theorem c2_stop_abandons_cursor_witness :
    (fun n => n == 0) 0 = true
    ∧ afterNSleeps 1 (dispatchLoop (fun n => n == 0) catchUpEvents 0 0 0 0).1 = [] :=
  ⟨rfl, c2_stop_abandons_cursor (fun n => n == 0) catchUpEvents 0 0 0 0 rfl⟩

/-- Claim C10: an event of unrecognized kind adds its delta-time to the
running `midi_time` accumulator before its kind is examined, and is dropped
without dispatch — the loop even sleeps for it when it lies in the future —
so it delays each subsequent event's scheduled time by its delta-time.  The
two closed runs compare a cursor with and without a dropped 1000-microsecond
event in front of an otherwise immediately-due note: the dropped event turns
the immediate dispatch into one behind a 1000-microsecond suspension. -/
theorem c10_dropped_events_still_delay (stopAt : Nat → Bool) (raw d : Nat)
    (rest : List MidiEvent) (midi_time : Nat) (now start_time : Int) (s : Nat) :
    ((dispatchLoop stopAt (⟨d, .other raw⟩ :: rest) midi_time now start_time s).1
      = if 0 < ((midi_time + d : Nat) : Int) - (now - start_time) then
          .sleep (((midi_time + d : Nat) : Int) - (now - start_time)).toNat ::
            (if stopAt s then []
             else (dispatchLoop stopAt rest (midi_time + d)
                     (now + (((midi_time + d : Nat) : Int) - (now - start_time)))
                     start_time (s + 1)).1)
        else (dispatchLoop stopAt rest (midi_time + d) now start_time s).1)
    ∧ dispatchLoop noStop [⟨1000, .other 255⟩, ⟨0, .noteOn 60 100 0⟩] 0 0 0 0
        = ([.sleep 1000, .noteOn 60 100 0], false, 1000)
    ∧ dispatchLoop noStop [⟨0, .noteOn 60 100 0⟩] 0 0 0 0
        = ([.noteOn 60 100 0], false, 0) := by
  refine ⟨?_, by decide, by decide⟩
  simp only [dispatchLoop, dispatchOf, List.nil_append]
  split
  · split <;> rfl
  · rfl

/-! ## General lemmas about `stop`, `play` and `update` -/

/-- On a state whose session is already fully torn down (no song, no open
handle, flag clear, driver not streaming), `stop()` changes nothing. -/
theorem stopWorld_of_idle (w : World) (h1 : w.player.song = none)
    (h2 : w.player.audio_file = none) (h3 : w.player.midi_playing = false)
    (h4 : w.audio.playing = false) : (stopWorld w).1 = w := by
  obtain ⟨⟨song, af, aw, ap, mtr, mp, stt⟩, ⟨pl, lv, sr, cc, bps, cur⟩, log, lvl, nh⟩ := w
  simp only [stopWorld]
  simp_all

/-- The driver fields `stopWorld` produces, by computation. -/
theorem stopWorld_fields (w : World) :
    (stopWorld w).1.player.song = none
    ∧ (stopWorld w).1.player.audio_file = none
    ∧ (stopWorld w).1.player.midi_playing = false
    ∧ (stopWorld w).1.audio.playing = false := ⟨rfl, rfl, rfl, rfl⟩

/-! ## Claims about `stop`, `play` and the session state machine -/

/-- Claim C8: `stop()` is idempotent, and on an idle engine (no session, no
open handle, MIDI flag clear, driver not streaming — the state every torn
down session leaves behind) it is a no-op on the state.  The one call it
still issues, `self.audio.stop()` on an already stopped driver, is
state-identity. -/
theorem c8_stop_idempotent :
    (∀ w : World, (stopWorld (stopWorld w).1).1 = (stopWorld w).1)
    ∧ (∀ w : World, w.player.song = none → w.player.audio_file = none →
        w.player.midi_playing = false → w.audio.playing = false →
        (stopWorld w).1 = w) :=
  ⟨fun w => stopWorld_of_idle (stopWorld w).1 rfl rfl rfl rfl, stopWorld_of_idle⟩

/-- Witness for C8: the fresh engine state is idle and `stop()` leaves it
untouched. -/
theorem c8_stop_idempotent_witness :
    freshWorld.player.song = none ∧ freshWorld.player.audio_file = none
    ∧ freshWorld.player.midi_playing = false ∧ freshWorld.audio.playing = false
    ∧ (stopWorld freshWorld).1 = freshWorld :=
  ⟨rfl, rfl, rfl, rfl, c8_stop_idempotent.2 freshWorld rfl rfl rfl rfl⟩

/-- Counterexample to claim C3: `play` with a non-`Song` argument runs
`self.stop()` BEFORE the `isinstance` check, so calling it while a session
is active returns `False` but tears that session down: here the engine held
`songA` with the driver streaming, and after the call the session is gone
and the driver halted — the state is not left as it was. -/
theorem c3_counterexample :
    (playWorld playingWorld .notASong envOk).2.1 = .ok false
    ∧ playingWorld.player.song = some songA
    ∧ playingWorld.audio.playing = true
    ∧ (playWorld playingWorld .notASong envOk).1.player.song = none
    ∧ (playWorld playingWorld .notASong envOk).1.audio.playing = false := by
  refine ⟨rfl, rfl, rfl, rfl, rfl⟩

/-- Claim C3 amended: `play` with a non-`Song` argument returns `False`,
but its effect is exactly that of `stop()` — both on the state and on the
collaborators.  Only when the engine is already idle (no session, no open
handle, MIDI flag clear, driver stopped) is the call free of side effects
on the state. -/
theorem c3_invalid_song (w : World) (env : PlayEnv) :
    (playWorld w .notASong env).2.1 = .ok false
    ∧ (playWorld w .notASong env).1 = (stopWorld w).1
    ∧ (playWorld w .notASong env).2.2 = (stopWorld w).2
    ∧ (w.player.song = none → w.player.audio_file = none →
        w.player.midi_playing = false → w.audio.playing = false →
        (playWorld w .notASong env).1 = w) :=
  ⟨rfl, rfl, rfl, fun h1 h2 h3 h4 => by
    show (stopWorld w).1 = w
    exact stopWorld_of_idle w h1 h2 h3 h4⟩

/-- Witness for C3 (amended): on the idle fresh state, `play(not a Song)`
returns `False` and leaves the state exactly as it was. -/
theorem c3_invalid_song_witness :
    (playWorld freshWorld .notASong envOk).2.1 = .ok false
    ∧ (playWorld freshWorld .notASong envOk).1 = freshWorld :=
  ⟨(c3_invalid_song freshWorld envOk).1,
   (c3_invalid_song freshWorld envOk).2.2.2 rfl rfl rfl rfl⟩

/-! ## Phase lemmas about `update` -/

theorem updateMidiPhase_audio_playing (stopAt : Nat → Bool) (now : Int) (s : Song)
    (w : World) :
    (updateMidiPhase stopAt now s w).player.audio_playing = w.player.audio_playing := by
  simp only [updateMidiPhase]
  split
  · rfl
  · split <;> rfl

theorem updateMidiPhase_of_track (stopAt : Nat → Bool) (now : Int) (s : Song)
    (w : World) (track : List MidiEvent)
    (hm : s.has_midi = true) (ht : w.player.midi_track = some track) :
    (updateMidiPhase stopAt now s w).player.midi_playing = false := by
  simp only [updateMidiPhase, hm, if_true, ht]

theorem updateAudioPoll_of_flag_false (w : World)
    (h : w.player.audio_playing = false) : updateAudioPoll w = w := by
  simp [updateAudioPoll, h]

theorem updateAudioPoll_midi_playing (w : World) :
    (updateAudioPoll w).player.midi_playing = w.player.midi_playing := by
  simp only [updateAudioPoll]
  split <;> rfl

theorem updateAudioPoll_song (w : World) :
    (updateAudioPoll w).player.song = w.player.song := by
  simp only [updateAudioPoll]
  split <;> rfl

theorem updateAutoStop_audio_playing (w : World) :
    (updateAutoStop w).player.audio_playing = w.player.audio_playing := by
  simp only [updateAutoStop]
  split <;> rfl

theorem updateAutoStop_of_flags (w : World) (h1 : w.player.midi_playing = false)
    (h2 : w.player.audio_playing = false) : updateAutoStop w = (stopWorld w).1 := by
  simp [updateAutoStop, h1, h2]

/-- `update` never raises the audio-segment flag: if it was clear when the
call started it is clear when the call returns. -/
theorem updateWorld_audio_flag_false (stopAt : Nat → Bool) (now : Int) (w : World)
    (h : w.player.audio_playing = false) :
    (updateWorld stopAt now w).player.audio_playing = false := by
  simp only [updateWorld]
  split
  · exact h
  · rw [updateAutoStop_audio_playing,
      updateAudioPoll_of_flag_false _ (by rw [updateMidiPhase_audio_playing]; exact h),
      updateMidiPhase_audio_playing]
    exact h

/-- Counterexample to claim C4: `play` contains no `try/except`, so a
failing `audiocore.WaveFile` call propagates out of `play` instead of
being swallowed: for the valid audio song `songA` and an environment whose
WAV decode raises, `play` raises (`.error ()`), and does not return
`True`. -/
theorem c4_counterexample :
    songA.has_audio = true
    ∧ (playWorld freshWorld (.song songA) envWavFail).2.1 = .error ()
    ∧ ∀ b : Bool, (playWorld freshWorld (.song songA) envWavFail).2.1 ≠ .ok b :=
  ⟨rfl, rfl, fun _ h => Except.noConfusion h⟩

/-- Claim C4 amended: a failure to open or decode the audio asset (either
the `open` call or the `WaveFile` constructor raising) propagates out of
`play` — the exception reaches the caller.  The audio segment is indeed
left inactive (the driver is not started and the `audio_playing` flag is
exactly what it was before the call, never raised), and the session is
left partially initialized with the song reference installed. -/
theorem c4_audio_failure_raises (w : World) (s : Song) (env : PlayEnv)
    (ha : s.has_audio = true)
    (hfail : env.audioOpen = .error () ∨ env.wavDecode = .error ()) :
    (playWorld w (.song s) env).2.1 = .error ()
    ∧ (playWorld w (.song s) env).1.audio.playing = false
    ∧ (playWorld w (.song s) env).1.player.audio_playing = w.player.audio_playing
    ∧ (playWorld w (.song s) env).1.player.song = some s := by
  obtain ⟨apath, hp⟩ := Option.isSome_iff_exists.mp ha
  cases hm : s.midi_file with
  | none =>
    cases ho : env.audioOpen with
    | error u =>
      cases u
      refine ⟨?_, ?_, ?_, ?_⟩ <;> simp [playWorld, stopWorld, hm, hp, ho]
    | ok u =>
      cases u
      cases hw : env.wavDecode with
      | error u2 =>
        cases u2
        refine ⟨?_, ?_, ?_, ?_⟩ <;> simp [playWorld, stopWorld, hm, hp, ho, hw]
      | ok wav =>
        rcases hfail with hf | hf
        · rw [ho] at hf; cases hf
        · rw [hw] at hf; cases hf
  | some mpath =>
    cases hpar : env.midiParse with
    | error u =>
      cases u
      refine ⟨?_, ?_, ?_, ?_⟩ <;> simp [playWorld, stopWorld, hm, hp, hpar]
    | ok track =>
      cases ho : env.audioOpen with
      | error u =>
        cases u
        refine ⟨?_, ?_, ?_, ?_⟩ <;> simp [playWorld, stopWorld, hm, hp, hpar, ho]
      | ok u =>
        cases u
        cases hw : env.wavDecode with
        | error u2 =>
          cases u2
          refine ⟨?_, ?_, ?_, ?_⟩ <;> simp [playWorld, stopWorld, hm, hp, hpar, ho, hw]
        | ok wav =>
          rcases hfail with hf | hf
          · rw [ho] at hf; cases hf
          · rw [hw] at hf; cases hf

/-- Witness for C4 (amended): a failing `open` on the audio-only `songA`
makes `play` raise while the flag stays clear and the song is installed. -/
theorem c4_audio_failure_raises_witness :
    songA.has_audio = true
    ∧ envOpenFail.audioOpen = .error ()
    ∧ (playWorld freshWorld (.song songA) envOpenFail).2.1 = .error ()
    ∧ (playWorld freshWorld (.song songA) envOpenFail).1.player.song = some songA :=
  ⟨rfl, rfl, (c4_audio_failure_raises freshWorld songA envOpenFail rfl (Or.inl rfl)).1,
   (c4_audio_failure_raises freshWorld songA envOpenFail rfl (Or.inl rfl)).2.2.2⟩

/-- Claim C5: at most one session is active; `play(songB)` while a session
with an open audio handle `h` exists first performs the full implicit
`stop()` — the first two effects of the call are halting the audio driver
and closing (and clearing) handle `h` — and no teardown effect appears
later in the call, so every asset-open effect of the new session comes
after the release; afterwards the engine's only session is `songB`'s, and
any newly opened handle is fresh (distinct from `h`). -/
theorem c5_stop_before_open (w : World) (s : Song) (env : PlayEnv) (h : Nat)
    (hfile : w.player.audio_file = some h) :
    (playWorld w (.song s) env).2.2.take 2 = [.audioStop, .closeFile h]
    ∧ (∀ e ∈ (playWorld w (.song s) env).2.2.drop 2, e.isTeardown = false)
    ∧ (playWorld w (.song s) env).1.player.song = some s
    ∧ (h < w.nextHandle → ∀ h2,
        (playWorld w (.song s) env).1.player.audio_file = some h2 → h2 ≠ h) := by
  cases hm : s.midi_file with
  | none =>
    cases haf : s.audio_file with
    | none =>
      refine ⟨?_, ?_, ?_, ?_⟩ <;>
        simp [playWorld, stopWorld, hm, haf, hfile, Effect.isTeardown]
    | some apath =>
      cases ho : env.audioOpen with
      | error u =>
        cases u
        refine ⟨?_, ?_, ?_, ?_⟩ <;>
          simp [playWorld, stopWorld, hm, haf, hfile, ho, Effect.isTeardown]
      | ok u =>
        cases u
        cases hw : env.wavDecode with
        | error u2 =>
          cases u2
          refine ⟨?_, ?_, ?_, ?_⟩ <;>
            simp [playWorld, stopWorld, hm, haf, hfile, ho, hw, Effect.isTeardown] <;> omega
        | ok wav =>
          refine ⟨?_, ?_, ?_, ?_⟩ <;>
            simp [playWorld, stopWorld, hm, haf, hfile, ho, hw, Effect.isTeardown] <;> omega
  | some mpath =>
    cases hpar : env.midiParse with
    | error u =>
      cases u
      refine ⟨?_, ?_, ?_, ?_⟩ <;>
        simp [playWorld, stopWorld, hm, hpar, hfile, Effect.isTeardown]
    | ok track =>
      cases haf : s.audio_file with
      | none =>
        refine ⟨?_, ?_, ?_, ?_⟩ <;>
          simp [playWorld, stopWorld, hm, hpar, haf, hfile, Effect.isTeardown]
      | some apath =>
        cases ho : env.audioOpen with
        | error u =>
          cases u
          refine ⟨?_, ?_, ?_, ?_⟩ <;>
            simp [playWorld, stopWorld, hm, hpar, haf, hfile, ho, Effect.isTeardown]
        | ok u =>
          cases u
          cases hw : env.wavDecode with
          | error u2 =>
            cases u2
            refine ⟨?_, ?_, ?_, ?_⟩ <;>
              simp [playWorld, stopWorld, hm, hpar, haf, hfile, ho, hw,
                Effect.isTeardown] <;> omega
          | ok wav =>
            refine ⟨?_, ?_, ?_, ?_⟩ <;>
              simp [playWorld, stopWorld, hm, hpar, haf, hfile, ho, hw,
                Effect.isTeardown] <;> omega

/-- Witness for C5: starting `songM` while `songA`'s session holds handle
0 first halts and closes handle 0, then opens the MIDI asset. -/
theorem c5_stop_before_open_witness :
    playingWorld.player.audio_file = some 0
    ∧ (playWorld playingWorld (.song songM) envOk).2.2.take 2
        = [.audioStop, .closeFile 0]
    ∧ (playWorld playingWorld (.song songM) envOk).1.player.song = some songM :=
  ⟨rfl, (c5_stop_before_open playingWorld songM envOk 0 rfl).1,
   (c5_stop_before_open playingWorld songM envOk 0 rfl).2.2.1⟩

/-- Counterexample to claim C6: `stop()` does not reset `audio_playing`,
so the flag's value can leak into the next session.  After playing the
audio song `songA`, manually stopping, and playing the MIDI-only `songM`,
the new session is active with `audio_playing` still `true` — the
audio-segment-active flag is not false from the start of the MIDI-only
session. -/
theorem c6_counterexample :
    songM.has_midi = true ∧ songM.has_audio = false
    ∧ staleFlagWorld.player.song = some songM
    ∧ staleFlagWorld.player.audio_playing = true := ⟨rfl, rfl, rfl, rfl⟩

/-- Claim C6 amended: for a MIDI-only song, `play` itself never raises the
audio-segment flag: if the flag was clear when `play` was called it is
clear when the session starts, stays clear across any `update` call, and
`is_playing()` tracks solely the MIDI segment's completion — the `update`
call that consumes the cursor (to exhaustion or to a concurrent stop)
tears the session down.  (A stale `true` flag from a previous manually
stopped audio session can survive into the session, which is what the
counterexample exhibits.) -/
theorem c6_midi_only_session (w : World) (s : Song) (env : PlayEnv)
    (stopAt : Nat → Bool) (now : Int)
    (hm : s.has_midi = true) (ha : s.has_audio = false)
    (hflag : w.player.audio_playing = false) :
    (playWorld w (.song s) env).1.player.audio_playing = false
    ∧ (updateWorld stopAt now (playWorld w (.song s) env).1).player.audio_playing = false
    ∧ (∀ track, env.midiParse = .ok track →
        (updateWorld stopAt now (playWorld w (.song s) env).1).player.song = none) := by
  obtain ⟨mpath, hmp⟩ := Option.isSome_iff_exists.mp hm
  have haf : s.audio_file = none := Option.not_isSome_iff_eq_none.mp (by simp [Song.has_audio] at ha; simp [ha])
  have hplay_flag : (playWorld w (.song s) env).1.player.audio_playing = false := by
    cases hpar : env.midiParse with
    | error u => cases u; simp [playWorld, stopWorld, hmp, haf, hpar, hflag]
    | ok track => simp [playWorld, stopWorld, hmp, haf, hpar, hflag]
  refine ⟨hplay_flag, updateWorld_audio_flag_false stopAt now _ hplay_flag, ?_⟩
  intro track htrack
  have hsong : (playWorld w (.song s) env).1.player.song = some s := by
    simp [playWorld, stopWorld, hmp, haf, htrack]
  have htrk : (playWorld w (.song s) env).1.player.midi_track = some track := by
    simp [playWorld, stopWorld, hmp, haf, htrack]
  set wp := (playWorld w (.song s) env).1 with hwp
  have h1 : (updateMidiPhase stopAt now s wp).player.midi_playing = false :=
    updateMidiPhase_of_track stopAt now s wp track hm htrk
  have h2 : (updateMidiPhase stopAt now s wp).player.audio_playing = false := by
    rw [updateMidiPhase_audio_playing]; exact hplay_flag
  have h3 : updateAudioPoll (updateMidiPhase stopAt now s wp) = updateMidiPhase stopAt now s wp :=
    updateAudioPoll_of_flag_false _ h2
  simp only [updateWorld, hsong]
  rw [h3, updateAutoStop_of_flags _ h1 h2]
  rfl

/-- Witness for C6 (amended): playing the MIDI-only `songM` from the fresh
state keeps the audio flag clear and one `update` call ends the session. -/
theorem c6_midi_only_session_witness :
    songM.has_midi = true ∧ songM.has_audio = false
    ∧ freshWorld.player.audio_playing = false
    ∧ (playWorld freshWorld (.song songM) envOk).1.player.audio_playing = false
    ∧ (updateWorld noStop 100 (playWorld freshWorld (.song songM) envOk).1).player.song
        = none :=
  ⟨rfl, rfl, rfl,
   (c6_midi_only_session freshWorld songM envOk noStop 100 rfl rfl rfl).1,
   (c6_midi_only_session freshWorld songM envOk noStop 100 rfl rfl rfl).2.2
     [⟨0, .noteOn 60 100 0⟩] rfl⟩

/-- Counterexample to claim C7: the engine returns to idle in the SAME
`update` call that first observes `Audio Channel.is_playing() == false`,
not in the next one.  `audioDoneWorld` is the audio-only session for
`songA` right after the driver finished streaming; the very `update` call
that observes this already clears the session. -/
theorem c7_counterexample :
    audioDoneWorld.player.song = some songA
    ∧ audioDoneWorld.player.audio_playing = true
    ∧ audioDoneWorld.audio.playing = false
    ∧ (updateWorld noStop 200 audioDoneWorld).player.song = none :=
  ⟨rfl, rfl, rfl, rfl⟩

/-- Claim C7 amended: for an audio-only song, `play` configures the audio
driver with the WAV's actual sample rate / channel count / bits per sample
and starts it streaming (the `audioPlay` effect is issued); and the same
`update` call in which the driver first reports it is no longer streaming
clears the audio flag and transitions the engine back to idle via the
automatic `stop()`. -/
theorem c7_audio_only_session (w : World) (s : Song) (env : PlayEnv) (wav : WavFile)
    (ha : s.has_audio = true) (hm : s.has_midi = false)
    (ho : env.audioOpen = .ok ()) (hw : env.wavDecode = .ok wav) :
    ((playWorld w (.song s) env).2.1 = .ok true
      ∧ (playWorld w (.song s) env).1.audio.sample_rate = some wav.sample_rate
      ∧ (playWorld w (.song s) env).1.audio.channel_count = some wav.channel_count
      ∧ (playWorld w (.song s) env).1.audio.bits_per_sample = some wav.bits_per_sample
      ∧ (playWorld w (.song s) env).1.audio.playing = true
      ∧ Effect.audioPlay wav ∈ (playWorld w (.song s) env).2.2)
    ∧ (∀ w' : World, w'.player.song = some s → w'.player.audio_playing = true →
        w'.player.midi_playing = false → w'.audio.playing = false →
        ∀ stopAt now2,
          (updateWorld stopAt now2 w').player.song = none
          ∧ (updateWorld stopAt now2 w').player.audio_playing = false) := by
  obtain ⟨apath, hap⟩ := Option.isSome_iff_exists.mp ha
  have hmf : s.midi_file = none :=
    Option.not_isSome_iff_eq_none.mp (by simp [Song.has_midi] at hm; simp [hm])
  constructor
  · refine ⟨?_, ?_, ?_, ?_, ?_, ?_⟩ <;> simp [playWorld, stopWorld, hmf, hap, ho, hw]
  · intro w' hsong hflag hmp hdrv stopAt now2
    have hphase : updateMidiPhase stopAt now2 s w' = w' := by
      simp [updateMidiPhase, Song.has_midi, hmf]
    have hpoll : updateAudioPoll w'
        = { w' with player := { w'.player with audio_playing := false } } := by
      simp [updateAudioPoll, hflag, hdrv]
    simp only [updateWorld, hsong, hphase, hpoll]
    rw [updateAutoStop_of_flags _ (by simpa using hmp) rfl]
    exact ⟨rfl, rfl⟩

/-- Witness for C7 (amended): the concrete audio-only run — `play(songA)`
succeeds, configures the driver with `wavA`'s parameters, and the update
on `audioDoneWorld` (driver finished) goes idle in that same call. -/
theorem c7_audio_only_session_witness :
    songA.has_audio = true ∧ songA.has_midi = false
    ∧ (playWorld freshWorld (.song songA) envOk).2.1 = .ok true
    ∧ (playWorld freshWorld (.song songA) envOk).1.audio.sample_rate = some 22050
    ∧ (updateWorld noStop 200 audioDoneWorld).player.song = none :=
  ⟨rfl, rfl,
   (c7_audio_only_session freshWorld songA envOk wavA rfl rfl rfl rfl).1.1,
   (c7_audio_only_session freshWorld songA envOk wavA rfl rfl rfl rfl).1.2.1,
   ((c7_audio_only_session freshWorld songA envOk wavA rfl rfl rfl rfl).2
     audioDoneWorld rfl rfl rfl rfl noStop 200).1⟩

/-- Counterexample to claim C9: `toggle_song` assigns the selected index
BEFORE checking `player.is_playing()`, so a direct selection mutates the
index while a session is active: with `songA` playing and index 0
selected, `toggle_song(2)` moves the selection to 2. -/
theorem c9_counterexample :
    is_playing uiPlaying.world = true
    ∧ uiPlaying.selected = 0
    ∧ (toggle_song (some 2) envOk uiPlaying).selected = 2 := ⟨rfl, rfl, rfl⟩

/-- Claim C9 amended: `increment_song` and `decrement_song` leave the
selected index unchanged whenever `is_playing()` is true, but
`toggle_song` with an explicit index assigns `index % len(songs)`
unconditionally — before the play-state check — and with no index it never
touches the selection. -/
theorem c9_selection_only_while_idle (st : UiState) :
    (is_playing st.world = true →
      (increment_song st).selected = st.selected
      ∧ (decrement_song st).selected = st.selected)
    ∧ (∀ i env, (toggle_song (some i) env st).selected = i % st.songs.length)
    ∧ (∀ env, (toggle_song none env st).selected = st.selected) := by
  refine ⟨fun h => ⟨?_, ?_⟩, fun i env => ?_, fun env => ?_⟩
  · simp [increment_song, h]
  · simp [decrement_song, h]
  · simp only [toggle_song]
    split
    · rfl
    · split <;> rfl
  · simp only [toggle_song]
    split
    · rfl
    · split <;> rfl

/-- Witness for C9 (amended): with a session active, `increment_song` and
`decrement_song` leave the selection untouched. -/
theorem c9_selection_only_while_idle_witness :
    is_playing uiPlaying.world = true
    ∧ (increment_song uiPlaying).selected = uiPlaying.selected
    ∧ (decrement_song uiPlaying).selected = uiPlaying.selected :=
  ⟨rfl, ((c9_selection_only_while_idle uiPlaying).1 rfl).1,
   ((c9_selection_only_while_idle uiPlaying).1 rfl).2⟩

end Player
